import Mathlib

/-!
Verification of the Flowmender document-analysis pipeline.

This file gives a shallow embedding of the pipeline's core functions —
`GeminiService.handleApiError`, the reply handling of the three AI stage
methods, `GeminiService.generateInsights`, `DocumentValidator.fallbackValidation`
(and the simplified `simpleValidation` variant), and
`EdgeCaseFinder.analyzeDocument` with its `validateJourneys` /
`validateEdgeCases` / `getFallbackAnalysis` helpers — and proves the spec's
claims about them.

JavaScript strings are modeled as `List Char` (`Str`) where character-level
processing matters, and as Lean `String` elsewhere.  Provider interactions
(network calls to the LLM) are modeled as explicit `Except`-valued outcomes
passed in as parameters: an `Except.error msg` models the stage call throwing
an `Error` whose `.message` is `msg`.
-/

namespace Flowmender

/-- Characters of a JavaScript string. -/
abbrev Str := List Char

/-- Whitespace characters of the JavaScript regex class `\s` (the ASCII
members; the inputs considered here are ASCII). -/
def isWs (c : Char) : Bool :=
  c = ' ' || c = '\t' || c = '\n' || c = '\r' || c = Char.ofNat 11 || c = Char.ofNat 12

/-- Word characters of the JavaScript regex class `\w`. -/
def isWordChar (c : Char) : Bool :=
  ('a' ≤ c && c ≤ 'z') || ('A' ≤ c && c ≤ 'Z') || ('0' ≤ c && c ≤ '9') || c = '_'

/-- ASCII lower-casing, as `String.prototype.toLowerCase` acts on the ASCII
inputs considered here. -/
def toLowerChar (c : Char) : Char :=
  if 'A' ≤ c && c ≤ 'Z' then Char.ofNat (c.toNat + 32) else c

/-- One character of `content.toLowerCase().replace(/[^\w\s]/g, ' ')`:
lower-case, then replace every character that is neither a word character nor
whitespace by a space. -/
def cleanChar (c : Char) : Char :=
  let lc := toLowerChar c
  if isWordChar lc || isWs lc then lc else ' '

/-- JavaScript `hay.includes(needle)` on character lists: `needle` occurs as a
contiguous substring of `hay`. -/
def containsSub (hay needle : Str) : Bool :=
  match hay with
  | [] => needle.isEmpty
  | c :: rest => needle.isPrefixOf (c :: rest) || containsSub rest needle

/-- Drop the leading whitespace run. -/
def dropWs : Str → Str
  | [] => []
  | c :: rest => if isWs c then dropWs rest else c :: rest

/-- Auxiliary recursion for `splitWs`: `some cur` means a token `cur` (held
reversed) is being built, `none` means a whitespace run is being skipped. -/
def splitWsGo : Option Str → Str → List Str
  | some cur, [] => [cur.reverse]
  | none, [] => [[]]
  | some cur, c :: rest =>
    if isWs c then cur.reverse :: splitWsGo none rest
    else splitWsGo (some (c :: cur)) rest
  | none, c :: rest =>
    if isWs c then splitWsGo none rest
    else splitWsGo (some [c]) rest

/-- JavaScript `s.split(/\s+/)`: the (possibly empty) segments between maximal
whitespace runs; a leading (resp. trailing) whitespace run contributes a
leading (resp. trailing) empty segment, and splitting the empty string gives
`[""]`, exactly as in JavaScript. -/
def splitWs (s : Str) : List Str := splitWsGo (some []) s

/-- JavaScript `s.trim()` (ASCII whitespace). -/
def jsTrim (s : Str) : Str := (dropWs (dropWs s).reverse).reverse

/-- Decimal digit test. -/
def isDigit (c : Char) : Bool := '0' ≤ c && c ≤ '9'

/-- Value of a decimal digit. -/
def digitVal (c : Char) : Nat := c.toNat - '0'.toNat

/-- Hexadecimal digit test. -/
def isHexDigit (c : Char) : Bool :=
  isDigit c || ('a' ≤ c && c ≤ 'f') || ('A' ≤ c && c ≤ 'F')

/-- Value of a hexadecimal digit. -/
def hexVal (c : Char) : Nat :=
  if isDigit c then digitVal c
  else if 'a' ≤ c && c ≤ 'f' then c.toNat - 'a'.toNat + 10
  else c.toNat - 'A'.toNat + 10

/-- Accumulate the longest leading digit run. -/
def leadingNatAux (base : Nat) (isD : Char → Bool) (val : Char → Nat) (acc : Nat) :
    Str → Nat
  | [] => acc
  | c :: rest =>
    if isD c then leadingNatAux base isD val (acc * base + val c) rest else acc

/-- The longest leading run of digits as a number; `none` when the first
character is not a digit (mirrors `parseInt` returning `NaN`). -/
def leadingNat (base : Nat) (isD : Char → Bool) (val : Char → Nat) : Str → Option Nat
  | [] => none
  | c :: rest =>
    if isD c then some (leadingNatAux base isD val (val c) rest) else none

/-- Digit consumption of `parseInt` with no radix argument: an optional
`0x`/`0X` prefix selects hexadecimal, otherwise decimal. -/
def parseIntBody : Str → Option Nat
  | '0' :: 'x' :: rest => leadingNat 16 isHexDigit hexVal rest
  | '0' :: 'X' :: rest => leadingNat 16 isHexDigit hexVal rest
  | r => leadingNat 10 isDigit digitVal r

/-- JavaScript `parseInt(s)` (no radix argument): skip leading whitespace, an
optional sign, then the longest digit run; `none` models `NaN`. -/
def parseIntJS (s : Str) : Option Int :=
  match dropWs s with
  | '-' :: r => (parseIntBody r).map (fun n => -(n : Int))
  | '+' :: r => (parseIntBody r).map (fun n => (n : Int))
  | r => (parseIntBody r).map (fun n => (n : Int))

/-- `GeminiService.handleApiError`: the `message` of the `Error` it throws,
chosen by substring tests on the incoming error's message, in source order.
(An absent or empty incoming message matches no substring, so the JavaScript
`error.message &&` truthiness guard is subsumed.) -/
def handleApiError (msg : String) : String :=
  if containsSub msg.data "429".data then "quota_exceeded"
  else if containsSub msg.data "API key".data then "invalid_api_key"
  else if containsSub msg.data "quota".data then "quota_exceeded"
  else "api_unavailable"

/-- The suffix of `s` starting at the first occurrence of `o` (inclusive). -/
def afterFirst (o : Char) : Str → Option Str
  | [] => none
  | c :: rest => if c = o then some (c :: rest) else afterFirst o rest

/-- The prefix of `s` ending at the last occurrence of `cl` (inclusive). -/
def untilLast (cl : Char) (s : Str) : Option Str :=
  (afterFirst cl s.reverse).map List.reverse

/-- The span matched by the greedy JavaScript regexes `/\x7b[\s\S]*\x7d/` and
`/\[[\s\S]*\]/`: from the first opening character to the last closing
character; `none` when there is no match. -/
def extractSpan (o cl : Char) (s : Str) : Option Str :=
  match afterFirst o s with
  | none => none
  | some t => untilLast cl t

/-- The opening brace character. -/
def braceOpen : Char := Char.ofNat 123

/-- The closing brace character. -/
def braceClose : Char := Char.ofNat 125

/-- Reply handling of `GeminiService.validatePRDDocument`: the first
brace-delimited span of the reply is located and JSON-parsed; when no span
exists, the parse failure is routed through `handleApiError` and thrown.
`JSON.parse` of the span and the subsequent field defaulting are outside this
model; the `ok` payload is the raw span. -/
def validatePRDDocumentFromReply (text : String) : Except String String :=
  match extractSpan braceOpen braceClose text.data with
  | some span => Except.ok (String.mk span)
  | none => Except.error (handleApiError "Could not parse validation response")

/-- Reply handling of `GeminiService.analyzeForUserJourneys` (same discipline
as `validatePRDDocumentFromReply`, with a bracket-delimited span). -/
def analyzeForUserJourneysFromReply (text : String) : Except String String :=
  match extractSpan '[' ']' text.data with
  | some span => Except.ok (String.mk span)
  | none => Except.error (handleApiError "Could not parse journeys from AI response")

/-- Reply handling of `GeminiService.analyzeForEdgeCases` (same discipline as
`validatePRDDocumentFromReply`, with a bracket-delimited span). -/
def analyzeForEdgeCasesFromReply (text : String) : Except String String :=
  match extractSpan '[' ']' text.data with
  | some span => Except.ok (String.mk span)
  | none => Except.error (handleApiError "Could not parse issues from AI response")

/-- The value `GeminiService.generateInsights` computes from a reply text:
`parseInt(text.trim())`, the fixed default `70` when that is `NaN`, and the
clamp `Math.max(0, Math.min(100, score))` otherwise. -/
def scoreFromReply (text : String) : Int :=
  match parseIntJS (jsTrim text.data) with
  | none => 70
  | some n => max 0 (min 100 n)

/-- `GeminiService.generateInsights`, given the outcome of the provider call
(`Except.ok` the reply text, `Except.error` a thrown provider error's
message): a reply yields `scoreFromReply`; a provider error is rethrown with
the message classified by `handleApiError`. -/
def generateInsights (call : Except String String) : Except String Int :=
  match call with
  | Except.ok text => Except.ok (scoreFromReply text)
  | Except.error e => Except.error (handleApiError e)

/-! ## EdgeCaseFinder data model

Raw journey and edge-case objects are the untyped JSON values produced by
`JSON.parse` of the model reply: each field is an optional string (absent
models `undefined`), and array-valued fields are optional lists (absent models
a non-array value, which the validators replace by `[]`). -/

/-- An untrusted journey step object from the LLM. -/
structure RawJourneyStep where
  id : Option String
  action : Option String
  description : Option String
  expectedOutcome : Option String
  dependencies : Option (List String)
deriving DecidableEq

/-- An untrusted journey object from the LLM. -/
structure RawJourney where
  id : Option String
  name : Option String
  description : Option String
  userType : Option String
  priority : Option String
  steps : Option (List RawJourneyStep)
deriving DecidableEq

/-- An untrusted edge-case object from the LLM. -/
structure RawEdgeCase where
  id : Option String
  category : Option String
  severity : Option String
  title : Option String
  description : Option String
  affectedJourneys : Option (List String)
  recommendation : Option String
  impact : Option String
deriving DecidableEq

/-- A validated journey step (interface `JourneyStep` of `types/index.ts`). -/
structure JourneyStep where
  id : String
  action : String
  description : String
  expectedOutcome : String
  dependencies : List String
deriving DecidableEq

/-- A validated user journey (interface `UserJourney`). -/
structure UserJourney where
  id : String
  name : String
  description : String
  userType : String
  priority : String
  steps : List JourneyStep
deriving DecidableEq

/-- A validated edge case (interface `EdgeCase`). -/
structure EdgeCase where
  id : String
  category : String
  severity : String
  title : String
  description : String
  affectedJourneys : List String
  recommendation : String
  impact : String
deriving DecidableEq

/-- The optional free-text context passed through to every stage. -/
structure AnalysisContext where
  company : Option String
  problemStatement : Option String
deriving DecidableEq

/-- The summary block of an `AnalysisResult`. -/
structure AnalysisSummary where
  totalJourneys : Nat
  totalEdgeCases : Nat
  criticalIssues : Nat
  coverageScore : Int
deriving DecidableEq

/-- An uploaded document (interface `PRDDocument`); `uploadedAt` is a
timestamp. -/
structure PRDDocument where
  id : String
  name : String
  content : String
  type : String
  size : Nat
  uploadedAt : Nat
deriving DecidableEq

/-- The assembled result (interface `AnalysisResult`); `analyzedAt` is a
timestamp. -/
structure AnalysisResult where
  id : String
  documentName : String
  analyzedAt : Nat
  context : AnalysisContext
  journeys : List UserJourney
  edgeCases : List EdgeCase
  summary : AnalysisSummary
deriving DecidableEq

/-- The progress stages of `ProcessingStatus`. -/
inductive Stage
  | parsing
  | extracting
  | analyzing
  | generating
  | complete
deriving DecidableEq

/-- A progress event (interface `ProcessingStatus`). -/
structure ProcessingStatus where
  stage : Stage
  progress : Nat
  message : String
deriving DecidableEq

/-- JavaScript `x || d` for an optional string field: the default is used when
the field is absent (`undefined`) or the empty string (both falsy). -/
def orDefault (x : Option String) (d : String) : String :=
  match x with
  | some v => if v = "" then d else v
  | none => d

/-- JavaScript `list.includes(x)` for an optional string value
(`includes(undefined)` is false). -/
def optContains (x : Option String) (l : List String) : Bool :=
  match x with
  | some v => l.contains v
  | none => false

/-- The priority taxonomy of `validateJourneys`. -/
def priorityValues : List String := ["high", "medium", "low"]

/-- The category taxonomy of `validateEdgeCases`. -/
def categoryValues : List String :=
  ["missing_flow", "inconsistency", "ux_gap", "logical_contradiction"]

/-- The severity taxonomy of `validateEdgeCases`. -/
def severityValues : List String := ["critical", "moderate", "minor"]

/-- One element of the inner `steps.map` of `EdgeCaseFinder.validateJourneys`
(`index` is the journey's position, `stepIndex` the step's). -/
def validateStep (index stepIndex : Nat) (step : RawJourneyStep) : JourneyStep :=
  { id := orDefault step.id ("step-" ++ toString index ++ "-" ++ toString stepIndex)
    action := orDefault step.action ("Action " ++ toString (stepIndex + 1))
    description := orDefault step.description "No description provided"
    expectedOutcome := orDefault step.expectedOutcome "Expected outcome not specified"
    dependencies := step.dependencies.getD [] }

/-- The inner `steps.map` with its running step index. -/
def validateSteps (index stepIndex : Nat) : List RawJourneyStep → List JourneyStep
  | [] => []
  | s :: rest => validateStep index stepIndex s :: validateSteps index (stepIndex + 1) rest

/-- One element of the `journeys.map` of `EdgeCaseFinder.validateJourneys`:
missing/falsy fields are defaulted, a priority outside `priorityValues`
becomes `"medium"` (an absent priority fails the `includes` test, like
`undefined` in JavaScript), and non-array steps become `[]`. -/
def validateJourney (index : Nat) (j : RawJourney) : UserJourney :=
  { id := orDefault j.id ("journey-" ++ toString index)
    name := orDefault j.name ("Journey " ++ toString (index + 1))
    description := orDefault j.description "No description provided"
    userType := orDefault j.userType "User"
    priority :=
      match j.priority with
      | some p => if priorityValues.contains p then p else "medium"
      | none => "medium"
    steps := validateSteps index 0 (j.steps.getD []) }

/-- The `journeys.map` with its running index. -/
def validateJourneysFrom (index : Nat) : List RawJourney → List UserJourney
  | [] => []
  | j :: rest => validateJourney index j :: validateJourneysFrom (index + 1) rest

/-- `EdgeCaseFinder.validateJourneys` on an array input (on a non-array input
the source returns `[]`, which is outside the `List` model). -/
def validateJourneys (journeys : List RawJourney) : List UserJourney :=
  validateJourneysFrom 0 journeys

/-- One element of the `edgeCases.map` of `EdgeCaseFinder.validateEdgeCases`:
a category outside `categoryValues` becomes `"ux_gap"`, a severity outside
`severityValues` becomes `"moderate"`, and missing/falsy fields are
defaulted. -/
def validateEdgeCase (index : Nat) (e : RawEdgeCase) : EdgeCase :=
  { id := orDefault e.id ("edge-" ++ toString index)
    category :=
      match e.category with
      | some c => if categoryValues.contains c then c else "ux_gap"
      | none => "ux_gap"
    severity :=
      match e.severity with
      | some s => if severityValues.contains s then s else "moderate"
      | none => "moderate"
    title := orDefault e.title ("Issue " ++ toString (index + 1))
    description := orDefault e.description "No description provided"
    affectedJourneys := e.affectedJourneys.getD []
    recommendation := orDefault e.recommendation "No recommendation provided"
    impact := orDefault e.impact "Impact not specified" }

/-- The `edgeCases.map` with its running index. -/
def validateEdgeCasesFrom (index : Nat) : List RawEdgeCase → List EdgeCase
  | [] => []
  | e :: rest => validateEdgeCase index e :: validateEdgeCasesFrom (index + 1) rest

/-- `EdgeCaseFinder.validateEdgeCases` on an array input. -/
def validateEdgeCases (edgeCases : List RawEdgeCase) : List EdgeCase :=
  validateEdgeCasesFrom 0 edgeCases

/-- A validated step viewed again as untrusted input (all fields present). -/
def JourneyStep.toRaw (s : JourneyStep) : RawJourneyStep :=
  ⟨some s.id, some s.action, some s.description, some s.expectedOutcome,
    some s.dependencies⟩

/-- A validated journey viewed again as untrusted input. -/
def UserJourney.toRaw (j : UserJourney) : RawJourney :=
  ⟨some j.id, some j.name, some j.description, some j.userType, some j.priority,
    some (j.steps.map JourneyStep.toRaw)⟩

/-- A validated edge case viewed again as untrusted input. -/
def EdgeCase.toRaw (e : EdgeCase) : RawEdgeCase :=
  ⟨some e.id, some e.category, some e.severity, some e.title, some e.description,
    some e.affectedJourneys, some e.recommendation, some e.impact⟩

/-- `EdgeCaseFinder.getFallbackAnalysis`: the synthetic demo result substituted
when AI analysis fails.  The random id (`Math.random().toString(36)`) and the
current time (`new Date()`) are parameters. -/
def getFallbackAnalysis (document : PRDDocument) (context : AnalysisContext)
    (freshId : String) (now : Nat) : AnalysisResult :=
  let mockJourneys : List UserJourney :=
    [{ id := "1"
       name := "User Registration Flow"
       description := "New user creates an account and completes onboarding"
       userType := "New User"
       priority := "high"
       steps :=
         [{ id := "1-1"
            action := "Visit registration page"
            description := "User navigates to sign-up form"
            expectedOutcome := "Registration form loads successfully"
            dependencies := [] },
          { id := "1-2"
            action := "Fill registration form"
            description := "User enters email, password, and basic info"
            expectedOutcome := "Form validates input in real-time"
            dependencies := ["1-1"] }] }]
  let mockEdgeCases : List EdgeCase :=
    [{ id := "1"
       category := "missing_flow"
       severity := "critical"
       title := "AI Analysis Unavailable"
       description := "The AI service is currently unavailable. This is demo data to show the interface."
       affectedJourneys := ["1"]
       recommendation := "Check your API key and internet connection, then try again."
       impact := "Cannot perform real analysis of your PRD document." }]
  { id := freshId
    documentName := document.name
    analyzedAt := now
    context := context
    journeys := mockJourneys
    edgeCases := mockEdgeCases
    summary :=
      { totalJourneys := mockJourneys.length
        totalEdgeCases := mockEdgeCases.length
        criticalIssues := 1
        coverageScore := 0 } }

/-- The outcomes of the three provider interactions of one
`EdgeCaseFinder.analyzeDocument` run.  `journeysOutcome` and `edgeOutcome` are
the results of the full stage calls (`Except.ok` the JSON-parsed array,
`Except.error` the thrown error's message); `insightsReply` is the reply text
of the scoring call (its parsing happens inside `generateInsights`).  Later
outcomes may depend on earlier stage outputs. -/
structure StageCalls where
  journeysOutcome : Except String (List RawJourney)
  edgeOutcome : List RawJourney → Except String (List RawEdgeCase)
  insightsReply : List RawJourney → List RawEdgeCase → Except String String

/-- The message of the 95%-progress event emitted in the `catch` block of
`EdgeCaseFinder.analyzeDocument`, chosen by the caught error's message. -/
def fallbackMessage (errMsg : String) : String :=
  if errMsg = "quota_exceeded" then "API quota exceeded, showing demo analysis..."
  else if errMsg = "invalid_api_key" then "API key issue, showing demo analysis..."
  else "AI service unavailable, showing demo analysis..."

/-- `EdgeCaseFinder.analyzeDocument`: the returned `AnalysisResult` together
with the ordered progress events delivered to the registered callback.  Any
stage error is caught and replaced by `getFallbackAnalysis` after a
95%-`generating` event; on success the raw arrays feed the summary counts,
the validated arrays feed the result, and a 100%-`complete` event ends the
run.  The artificial `delay` calls have no observable effect and are not
modeled. -/
def analyzeDocument (document : PRDDocument) (context : AnalysisContext)
    (calls : StageCalls) (freshId fallbackId : String) (now : Nat) :
    AnalysisResult × List ProcessingStatus :=
  let ev1 : List ProcessingStatus :=
    [⟨Stage.parsing, 10, "Initializing AI analysis..."⟩,
     ⟨Stage.extracting, 30, "AI is extracting user journeys and workflows..."⟩]
  match calls.journeysOutcome with
  | Except.error msg =>
      (getFallbackAnalysis document context fallbackId now,
        ev1 ++ [⟨Stage.generating, 95, fallbackMessage msg⟩])
  | Except.ok journeys =>
    let ev2 := ev1 ++ [⟨Stage.analyzing, 60, "AI is identifying edge cases and inconsistencies..."⟩]
    match calls.edgeOutcome journeys with
    | Except.error msg =>
        (getFallbackAnalysis document context fallbackId now,
          ev2 ++ [⟨Stage.generating, 95, fallbackMessage msg⟩])
    | Except.ok edgeCases =>
      let ev3 := ev2 ++ [⟨Stage.generating, 90, "Generating comprehensive analysis report..."⟩]
      match generateInsights (calls.insightsReply journeys edgeCases) with
      | Except.error msg =>
          (getFallbackAnalysis document context fallbackId now,
            ev3 ++ [⟨Stage.generating, 95, fallbackMessage msg⟩])
      | Except.ok coverageScore =>
          ({ id := freshId
             documentName := document.name
             analyzedAt := now
             context := context
             journeys := validateJourneys journeys
             edgeCases := validateEdgeCases edgeCases
             summary :=
               { totalJourneys := journeys.length
                 totalEdgeCases := edgeCases.length
                 criticalIssues := (edgeCases.filter (fun e => e.severity == some "critical")).length
                 coverageScore := coverageScore } },
           ev3 ++ [⟨Stage.complete, 100, "AI analysis complete!"⟩])

/-- True exactly when some stage's provider interaction fails, i.e. when
`analyzeDocument` takes its `catch` branch. -/
def stageFailure (calls : StageCalls) : Bool :=
  match calls.journeysOutcome with
  | Except.error _ => true
  | Except.ok js =>
    match calls.edgeOutcome js with
    | Except.error _ => true
    | Except.ok es =>
      match calls.insightsReply js es with
      | Except.error _ => true
      | Except.ok _ => false

/-! ## DocumentValidator

The validator's confidence arithmetic is done on JavaScript numbers.  All
values that arise are rationals with small numerators and denominators, and
the comparison thresholds (20/30/60/70) are never hit exactly, so IEEE double
arithmetic decides every comparison and every `Math.round` exactly as exact
rational arithmetic does.  Rationals are modeled as unreduced fractions with
positive denominators (`Frac`), which — unlike `ℚ`, whose normalization is
not kernel-reducible — evaluate by `decide`. -/

/-- An unreduced fraction; all constructed values keep `den` positive. -/
structure Frac where
  num : Int
  den : Int
deriving DecidableEq

/-- The fraction n/1. -/
def Frac.ofInt (n : Int) : Frac := ⟨n, 1⟩

/-- Strict comparison of fractions with positive denominators. -/
def Frac.blt (a b : Frac) : Bool := a.num * b.den < b.num * a.den

/-- Division of fractions (the divisor's numerator is positive at every use
site below). -/
def Frac.div (a b : Frac) : Frac := ⟨a.num * b.den, a.den * b.num⟩

/-- Multiplication of fractions. -/
def Frac.mul (a b : Frac) : Frac := ⟨a.num * b.num, a.den * b.den⟩

/-- JavaScript `Math.min` on fractions. -/
def Frac.fmin (a b : Frac) : Frac := if Frac.blt b a then b else a

/-- JavaScript `Math.max` on fractions. -/
def Frac.fmax (a b : Frac) : Frac := if Frac.blt a b then b else a

/-- JavaScript `Math.round` (round half towards positive infinity):
`Math.round (n/d) = ⌊n/d + 1/2⌋ = ⌊(2n+d) / 2d⌋`. -/
def Frac.round (a : Frac) : Int := Int.fdiv (2 * a.num + a.den) (2 * a.den)

/-- The result shape of `DocumentValidator.validatePRD`; `confidence` is the
rounded value actually returned. -/
structure ValidationResult where
  isPRD : Bool
  confidence : Int
  reasons : List String
deriving DecidableEq

/-- The PRD keyword list of `DocumentValidator.fallbackValidation` (each match
is worth 2 points). -/
def prdKeywords : List String :=
  ["product requirements", "product requirement", "prd", "requirements document",
   "functional requirements", "non-functional requirements", "user stories",
   "acceptance criteria", "success metrics", "kpis", "objectives",
   "user journey", "user flow", "user experience", "user interface",
   "persona", "user persona", "target audience", "end user",
   "customer", "stakeholder", "use case", "user story",
   "feature", "functionality", "capability", "specification",
   "wireframe", "mockup", "prototype", "mvp", "minimum viable product",
   "roadmap", "milestone", "release", "sprint", "iteration",
   "business logic", "business rules", "business requirements",
   "revenue", "monetization", "pricing", "market", "competition",
   "value proposition", "problem statement", "solution",
   "api", "integration", "database", "architecture", "system",
   "platform", "framework", "security", "performance", "scalability",
   "authentication", "authorization", "workflow", "process"]

/-- The document-structure keyword list (each match is worth 1 point). -/
def structureKeywords : List String :=
  ["overview", "introduction", "scope", "assumptions", "constraints",
   "dependencies", "risks", "timeline", "deliverables", "appendix",
   "glossary", "references", "version", "changelog", "revision"]

/-- The anti-pattern keyword list (each match costs 3 points). -/
def antiPatterns : List String :=
  ["recipe", "cooking", "ingredients", "temperature", "oven",
   "novel", "chapter", "character", "plot", "story",
   "poem", "verse", "rhyme", "stanza",
   "invoice", "payment", "billing", "receipt",
   "medical", "diagnosis", "treatment", "patient", "doctor",
   "legal", "contract", "agreement", "clause", "whereas"]

/-- The `prdMatches` list of `fallbackValidation`: the PRD keywords that occur
in the cleaned content. -/
def prdMatchesOf (cleanContent : Str) : List String :=
  prdKeywords.filter fun k => containsSub cleanContent (k.data.map toLowerChar)

/-- The `structureMatches` list of `fallbackValidation`. -/
def structureMatchesOf (cleanContent : Str) : List String :=
  structureKeywords.filter fun k => containsSub cleanContent (k.data.map toLowerChar)

/-- The `antiMatches` list of `fallbackValidation`. -/
def antiMatchesOf (cleanContent : Str) : List String :=
  antiPatterns.filter fun k => containsSub cleanContent (k.data.map toLowerChar)

/-- `DocumentValidator.fallbackValidation`, the keyword-scoring heuristic. -/
def fallbackValidation (content : String) : ValidationResult :=
  let cleanContent : Str := content.data.map cleanChar
  let words := splitWs cleanContent
  let prdMatches := prdMatchesOf cleanContent
  let score1 : Int := prdMatches.length * 2
  let maxScore1 : Int := prdKeywords.length * 2
  let reasons1 : List String :=
    if prdMatches.length > 0 then
      ["Found " ++ toString prdMatches.length ++ " PRD-related terms: " ++
        String.intercalate ", " (prdMatches.take 3) ++
        (if prdMatches.length > 3 then "..." else "")]
    else []
  let structureMatches := structureMatchesOf cleanContent
  let score2 : Int := score1 + structureMatches.length
  let maxScore2 : Int := maxScore1 + structureKeywords.length
  let reasons2 := reasons1 ++
    (if structureMatches.length > 0 then
      ["Document structure indicators found: " ++
        String.intercalate ", " (structureMatches.take 3)]
    else [])
  let antiMatches := antiMatchesOf cleanContent
  let score3 : Int := score2 - antiMatches.length * 3
  let reasons3 := reasons2 ++
    (if antiMatches.length > 0 then
      ["Non-PRD content detected: " ++ String.intercalate ", " (antiMatches.take 2)]
    else [])
  let score4 : Int :=
    if words.length < 100 then score3 - 10
    else if words.length > 500 then score3 + 5
    else score3
  let reasons4 := reasons3 ++
    (if words.length < 100 then ["Document seems too short for a comprehensive PRD"]
     else if words.length > 500 then ["Document length suggests comprehensive content"]
     else [])
  let confidence : Frac :=
    Frac.fmax (Frac.ofInt 0) (Frac.fmin (Frac.ofInt 100)
      (Frac.mul (Frac.div (Frac.ofInt score4) (Frac.ofInt (max maxScore2 1))) (Frac.ofInt 100)))
  let isPRD : Bool := Frac.blt (Frac.ofInt 30) confidence
  let assessment : String :=
    if Frac.blt (Frac.ofInt 70) confidence then
      "High confidence: This appears to be a well-structured PRD"
    else if Frac.blt (Frac.ofInt 30) confidence then
      "Moderate confidence: This may be a PRD or related product document"
    else "Low confidence: This does not appear to be a typical PRD document"
  { isPRD := isPRD
    confidence := Frac.round confidence
    reasons := assessment :: reasons4 }

/-- The keyword list of the simplified validator variant. -/
def simpleKeywords : List String :=
  ["product", "requirements", "feature", "user", "functionality",
   "specification", "workflow", "process", "system", "application",
   "interface", "design", "development", "implementation", "business",
   "objective", "goal", "scope", "overview", "description"]

/-- The `prdMatches` list of `simpleValidation`. -/
def simpleMatchesOf (cleanContent : Str) : List String :=
  simpleKeywords.filter fun k => containsSub cleanContent (k.data.map toLowerChar)

/-- `DocumentValidator.simpleValidation`, the simplified variant (sole
strategy of the degraded build). -/
def simpleValidation (content : String) : ValidationResult :=
  let cleanContent : Str := content.data.map cleanChar
  let words := splitWs cleanContent
  let prdMatches := simpleMatchesOf cleanContent
  let score1 : Int := prdMatches.length * 2
  let reasons1 : List String :=
    if prdMatches.length > 0 then
      ["Found " ++ toString prdMatches.length ++ " product-related terms"]
    else []
  let score2 : Int :=
    if words.length < 50 then score1 - 10
    else if words.length > 100 then score1 + 10
    else score1
  let reasons2 := reasons1 ++
    (if words.length < 50 then ["Document seems too short"]
     else if words.length > 100 then ["Document has substantial content"]
     else [])
  let confidence : Frac :=
    Frac.fmax (Frac.ofInt 0) (Frac.fmin (Frac.ofInt 100)
      (Frac.mul (Frac.ofInt score2) (Frac.ofInt 2)))
  let isPRD : Bool := Frac.blt (Frac.ofInt 20) confidence
  let assessment : String :=
    if Frac.blt (Frac.ofInt 60) confidence then
      "High confidence: This appears to be a product document"
    else if Frac.blt (Frac.ofInt 20) confidence then
      "Moderate confidence: This may be a product-related document"
    else "Low confidence: This may not be a typical product document"
  { isPRD := isPRD
    confidence := Frac.round confidence
    reasons := assessment :: reasons2 }

/-! ## Concrete sample inputs used by witnesses and counterexamples -/

/-- First half of the scenario-B document: the verbatim strings
`"functional requirements"`, `"user stories"`, `"acceptance criteria"` and
`"KPIs"` (each twice) followed by filler words. -/
def scenarioBDocA : String :=
  "functional requirements user stories acceptance criteria KPIs functional requirements user stories acceptance criteria KPIs q q q q q q q q q q q q q q q q q q q q q q q q q q q q q q q q q q q q q q q q q q q q q q q q q q q q q q q q q q q q q q q q q q q q q q q q q q q q q q q q q q q q q q q q q q q q q q q q q q q q q q q q q q q q q q q q q q q q q q q q q q q q q q q q q q q q q q q q q q q q q q q q q q q q q q q q q q q q q q q q q q q q q q q q q q q q q q q q q q q q q q q q q q q q q q q q q q q q q q q q q q q q q q q q q q q q q q q q q q q q q q q q q q q q q q q q q q q q q q q q q q q q q q q q q q q q q q q q q q q q q q q"

/-- Second half of the scenario-B document: more one-letter filler words. -/
def scenarioBDocB : String :=
  " q q q q q q q q q q q q q q q q q q q q q q q q q q q q q q q q q q q q q q q q q q q q q q q q q q q q q q q q q q q q q q q q q q q q q q q q q q q q q q q q q q q q q q q q q q q q q q q q q q q q q q q q q q q q q q q q q q q q q q q q q q q q q q q q q q q q q q q q q q q q q q q q q q q q q q q q q q q q q q q q q q q q q q q q q q q q q q q q q q q q q q q q q q q q q q q q q q q q q q q q q q q q q q q q q q q q q q q q q q q q q q q q q q q q q q q q q q q q q q q q q q q q q q q q q q q q q q q q q q q q q q q q q q q q q q q q q q q q q q q q q q q q q q q q q q q q q q q q q q q q q q q q q q q q q q q q q q q q q q q q q q q q"

/-- A 601-word document containing the verbatim strings
`"functional requirements"`, `"user stories"`, `"acceptance criteria"` and
`"KPIs"` (each twice) followed by 587 one-letter filler words, matching no
other keyword and no anti-pattern keyword: the minimal instance of the
spec's end-to-end scenario B.  Built from two literal halves so that
kernel-level proofs about it can work chunk-wise. -/
def scenarioBDoc : String := scenarioBDocA ++ scenarioBDocB

/-- `scenarioBDocA` after `toLowerCase` and punctuation replacement. -/
def cleanScenarioBDocA : String :=
  "functional requirements user stories acceptance criteria kpis functional requirements user stories acceptance criteria kpis q q q q q q q q q q q q q q q q q q q q q q q q q q q q q q q q q q q q q q q q q q q q q q q q q q q q q q q q q q q q q q q q q q q q q q q q q q q q q q q q q q q q q q q q q q q q q q q q q q q q q q q q q q q q q q q q q q q q q q q q q q q q q q q q q q q q q q q q q q q q q q q q q q q q q q q q q q q q q q q q q q q q q q q q q q q q q q q q q q q q q q q q q q q q q q q q q q q q q q q q q q q q q q q q q q q q q q q q q q q q q q q q q q q q q q q q q q q q q q q q q q q q q q q q q q q q q q q q q q q q q q q"

/-- `scenarioBDocB` after `toLowerCase` and punctuation replacement (it is
already lower-case). -/
def cleanScenarioBDocB : String :=
  " q q q q q q q q q q q q q q q q q q q q q q q q q q q q q q q q q q q q q q q q q q q q q q q q q q q q q q q q q q q q q q q q q q q q q q q q q q q q q q q q q q q q q q q q q q q q q q q q q q q q q q q q q q q q q q q q q q q q q q q q q q q q q q q q q q q q q q q q q q q q q q q q q q q q q q q q q q q q q q q q q q q q q q q q q q q q q q q q q q q q q q q q q q q q q q q q q q q q q q q q q q q q q q q q q q q q q q q q q q q q q q q q q q q q q q q q q q q q q q q q q q q q q q q q q q q q q q q q q q q q q q q q q q q q q q q q q q q q q q q q q q q q q q q q q q q q q q q q q q q q q q q q q q q q q q q q q q q q q q q q q q q q"

/-- `scenarioBDoc` after `toLowerCase` and punctuation replacement (it has no
punctuation, so only `KPIs` changes); equality with
`scenarioBDoc.data.map cleanChar` is proved in `scenarioB_clean_eq`. -/
def cleanScenarioBDoc : String := cleanScenarioBDocA ++ cleanScenarioBDocB

/-- A sample uploaded document. -/
def sampleDoc : PRDDocument :=
  { id := "doc-1", name := "sample.md", content := "A PRD body.", type := "text",
    size := 11, uploadedAt := 1700000000 }

/-- A sample analysis context. -/
def sampleCtx : AnalysisContext :=
  { company := some "Acme", problemStatement := none }

/-- Stage outcomes whose extraction call throws a 429-style (quota) error. -/
def callsQuotaFail : StageCalls :=
  { journeysOutcome := Except.error "quota_exceeded"
    edgeOutcome := fun _ => Except.ok []
    insightsReply := fun _ _ => Except.ok "85" }

/-- A raw journey with an unknown priority value. -/
def rawJourneyUrgent : RawJourney :=
  { id := some "j1", name := some "Checkout", description := none,
    userType := some "Buyer", priority := some "urgent", steps := none }

/-- A raw edge case with unknown severity and category values. -/
def rawEdgeCaseOdd : RawEdgeCase :=
  { id := none, category := some "security", severity := some "blocker",
    title := some "Odd", description := none, affectedJourneys := none,
    recommendation := none, impact := none }

/-! ## Helper lemmas -/

theorem length_validateJourneysFrom (i : Nat) (js : List RawJourney) :
    (validateJourneysFrom i js).length = js.length := by
  induction js generalizing i with
  | nil => rfl
  | cons j rest ih => simp [validateJourneysFrom, ih]

theorem length_validateEdgeCasesFrom (i : Nat) (es : List RawEdgeCase) :
    (validateEdgeCasesFrom i es).length = es.length := by
  induction es generalizing i with
  | nil => rfl
  | cons e rest ih => simp [validateEdgeCasesFrom, ih]

theorem validateEdgeCase_severity_beq (i : Nat) (e : RawEdgeCase) :
    ((validateEdgeCase i e).severity == "critical") = (e.severity == some "critical") := by
  simp only [validateEdgeCase]
  cases e.severity with
  | none => decide
  | some s =>
    by_cases hs : s = "critical"
    · subst hs; decide
    · have h1 : (s == "critical") = false := beq_eq_false_iff_ne.mpr hs
      have h2 : (some s == some "critical") = false :=
        beq_eq_false_iff_ne.mpr fun hcon => hs (Option.some.inj hcon)
      dsimp only
      rw [h2]
      by_cases hmem : severityValues.contains s = true
      · rw [if_pos hmem]; exact h1
      · rw [if_neg hmem]; decide

theorem validateEdgeCasesFrom_critical_length (i : Nat) (es : List RawEdgeCase) :
    ((validateEdgeCasesFrom i es).filter (fun v => v.severity == "critical")).length
      = (es.filter (fun e => e.severity == some "critical")).length := by
  induction es generalizing i with
  | nil => rfl
  | cons e rest ih =>
    simp only [validateEdgeCasesFrom, List.filter_cons, validateEdgeCase_severity_beq]
    split
    · simp [ih (i + 1)]
    · exact ih (i + 1)

theorem scoreFromReply_nonneg (text : String) : 0 ≤ scoreFromReply text := by
  unfold scoreFromReply
  split
  · decide
  · exact le_max_left 0 _

theorem scoreFromReply_le_hundred (text : String) : scoreFromReply text ≤ 100 := by
  unfold scoreFromReply
  split
  · decide
  · exact max_le (by decide) (min_le_left _ _)

theorem string_append_data (s t : String) : (s ++ t).data = s.data ++ t.data := rfl

theorem append_ne_empty (s t : String) (h : s.data ≠ []) : s ++ t ≠ "" := by
  intro he
  apply h
  have hd : s.data ++ t.data = ([] : List Char) := by
    rw [← string_append_data, he]
  exact (List.append_eq_nil.mp hd).1

theorem append_left_data_ne (s t : String) (h : s.data ≠ []) : (s ++ t).data ≠ [] := by
  rw [string_append_data]
  intro he
  exact h (List.append_eq_nil.mp he).1

theorem orDefault_ne_empty (x : Option String) (d : String) (hd : d ≠ "") :
    orDefault x d ≠ "" := by
  cases x with
  | none => exact hd
  | some v =>
    by_cases hv : v = ""
    · simpa [orDefault, hv] using hd
    · simpa [orDefault, hv] using hv

theorem orDefault_some_of_ne (y d : String) (h : y ≠ "") :
    orDefault (some y) d = y := by
  simp [orDefault, h]

theorem orDefault_idem (x : Option String) (d : String) (hd : d ≠ "") :
    orDefault (some (orDefault x d)) d = orDefault x d :=
  orDefault_some_of_ne _ _ (orDefault_ne_empty x d hd)

theorem validateStep_of_validated (i k : Nat) (s : JourneyStep)
    (hid : s.id ≠ "") (hact : s.action ≠ "") (hdesc : s.description ≠ "")
    (hexp : s.expectedOutcome ≠ "") :
    validateStep i k (JourneyStep.toRaw s) = s := by
  simp only [validateStep, JourneyStep.toRaw, Option.getD_some,
    orDefault_some_of_ne _ _ hid, orDefault_some_of_ne _ _ hact,
    orDefault_some_of_ne _ _ hdesc, orDefault_some_of_ne _ _ hexp]

theorem validateStep_idem (i k : Nat) (s : RawJourneyStep) :
    validateStep i k (JourneyStep.toRaw (validateStep i k s)) = validateStep i k s := by
  apply validateStep_of_validated
  · exact orDefault_ne_empty _ _ (append_ne_empty _ _
      (append_left_data_ne _ _ (append_left_data_ne _ _ (by decide))))
  · exact orDefault_ne_empty _ _ (append_ne_empty _ _ (by decide))
  · exact orDefault_ne_empty _ _ (by decide)
  · exact orDefault_ne_empty _ _ (by decide)

theorem validateSteps_idem (i k : Nat) (l : List RawJourneyStep) :
    validateSteps i k ((validateSteps i k l).map JourneyStep.toRaw) = validateSteps i k l := by
  induction l generalizing k with
  | nil => rfl
  | cons s rest ih => simp [validateSteps, validateStep_idem, ih]

theorem validateJourney_priority_mem (i : Nat) (j : RawJourney) :
    priorityValues.contains (validateJourney i j).priority = true := by
  simp only [validateJourney]
  cases j.priority with
  | none => decide
  | some p =>
    dsimp only
    by_cases hp : priorityValues.contains p = true
    · rw [if_pos hp]; exact hp
    · rw [if_neg hp]; decide

theorem validateEdgeCase_severity_mem (i : Nat) (e : RawEdgeCase) :
    severityValues.contains (validateEdgeCase i e).severity = true := by
  simp only [validateEdgeCase]
  cases e.severity with
  | none => decide
  | some s =>
    dsimp only
    by_cases hs : severityValues.contains s = true
    · rw [if_pos hs]; exact hs
    · rw [if_neg hs]; decide

theorem validateEdgeCase_category_mem (i : Nat) (e : RawEdgeCase) :
    categoryValues.contains (validateEdgeCase i e).category = true := by
  simp only [validateEdgeCase]
  cases e.category with
  | none => decide
  | some c =>
    dsimp only
    by_cases hc : categoryValues.contains c = true
    · rw [if_pos hc]; exact hc
    · rw [if_neg hc]; decide

theorem validateJourney_of_validated (i : Nat) (u : UserJourney)
    (hid : u.id ≠ "") (hname : u.name ≠ "") (hdesc : u.description ≠ "")
    (huser : u.userType ≠ "") (hpri : priorityValues.contains u.priority = true)
    (hsteps : validateSteps i 0 (u.steps.map JourneyStep.toRaw) = u.steps) :
    validateJourney i (UserJourney.toRaw u) = u := by
  simp only [validateJourney, UserJourney.toRaw, Option.getD_some,
    orDefault_some_of_ne _ _ hid, orDefault_some_of_ne _ _ hname,
    orDefault_some_of_ne _ _ hdesc, orDefault_some_of_ne _ _ huser,
    if_pos hpri, hsteps]

theorem validateJourney_idem (i : Nat) (j : RawJourney) :
    validateJourney i (UserJourney.toRaw (validateJourney i j)) = validateJourney i j := by
  apply validateJourney_of_validated
  · exact orDefault_ne_empty _ _ (append_ne_empty _ _ (by decide))
  · exact orDefault_ne_empty _ _ (append_ne_empty _ _ (by decide))
  · exact orDefault_ne_empty _ _ (by decide)
  · exact orDefault_ne_empty _ _ (by decide)
  · exact validateJourney_priority_mem i j
  · exact validateSteps_idem i 0 (j.steps.getD [])

theorem validateJourneysFrom_idem (i : Nat) (js : List RawJourney) :
    validateJourneysFrom i ((validateJourneysFrom i js).map UserJourney.toRaw)
      = validateJourneysFrom i js := by
  induction js generalizing i with
  | nil => rfl
  | cons j rest ih => simp [validateJourneysFrom, validateJourney_idem, ih]

theorem validateEdgeCase_of_validated (i : Nat) (u : EdgeCase)
    (hid : u.id ≠ "") (htitle : u.title ≠ "") (hdesc : u.description ≠ "")
    (hrec : u.recommendation ≠ "") (himp : u.impact ≠ "")
    (hcat : categoryValues.contains u.category = true)
    (hsev : severityValues.contains u.severity = true) :
    validateEdgeCase i (EdgeCase.toRaw u) = u := by
  simp only [validateEdgeCase, EdgeCase.toRaw, Option.getD_some,
    orDefault_some_of_ne _ _ hid, orDefault_some_of_ne _ _ htitle,
    orDefault_some_of_ne _ _ hdesc, orDefault_some_of_ne _ _ hrec,
    orDefault_some_of_ne _ _ himp, if_pos hcat, if_pos hsev]

theorem validateEdgeCase_idem (i : Nat) (e : RawEdgeCase) :
    validateEdgeCase i (EdgeCase.toRaw (validateEdgeCase i e)) = validateEdgeCase i e := by
  apply validateEdgeCase_of_validated
  · exact orDefault_ne_empty _ _ (append_ne_empty _ _ (by decide))
  · exact orDefault_ne_empty _ _ (append_ne_empty _ _ (by decide))
  · exact orDefault_ne_empty _ _ (by decide)
  · exact orDefault_ne_empty _ _ (by decide)
  · exact orDefault_ne_empty _ _ (by decide)
  · exact validateEdgeCase_category_mem i e
  · exact validateEdgeCase_severity_mem i e

theorem validateEdgeCasesFrom_idem (i : Nat) (es : List RawEdgeCase) :
    validateEdgeCasesFrom i ((validateEdgeCasesFrom i es).map EdgeCase.toRaw)
      = validateEdgeCasesFrom i es := by
  induction es generalizing i with
  | nil => rfl
  | cons e rest ih => simp [validateEdgeCasesFrom, validateEdgeCase_idem, ih]

/-! ## Claim theorems -/

/-- C5: the coercion pass maps a priority outside `{high, medium, low}` to
`"medium"`, a severity outside `{critical, moderate, minor}` to `"moderate"`,
and a category outside the canonical taxonomy to the default member
`"ux_gap"`, so every validated object's enum fields lie in the known sets. -/
theorem validate_coerces_unknown_enums (i : Nat) (j : RawJourney) (e : RawEdgeCase) :
    priorityValues.contains (validateJourney i j).priority = true ∧
    severityValues.contains (validateEdgeCase i e).severity = true ∧
    categoryValues.contains (validateEdgeCase i e).category = true ∧
    (optContains j.priority priorityValues = false →
      (validateJourney i j).priority = "medium") ∧
    (optContains e.severity severityValues = false →
      (validateEdgeCase i e).severity = "moderate") ∧
    (optContains e.category categoryValues = false →
      (validateEdgeCase i e).category = "ux_gap") := by
  refine ⟨validateJourney_priority_mem i j, validateEdgeCase_severity_mem i e,
          validateEdgeCase_category_mem i e, ?_, ?_, ?_⟩
  · intro h
    simp only [validateJourney]
    cases hp : j.priority with
    | none => rfl
    | some p =>
      simp only [optContains, hp] at h
      dsimp only
      rw [if_neg (by simpa using h)]
  · intro h
    simp only [validateEdgeCase]
    cases hs : e.severity with
    | none => rfl
    | some s =>
      simp only [optContains, hs] at h
      dsimp only
      rw [if_neg (by simpa using h)]
  · intro h
    simp only [validateEdgeCase]
    cases hc : e.category with
    | none => rfl
    | some c =>
      simp only [optContains, hc] at h
      dsimp only
      rw [if_neg (by simpa using h)]

/-- Witness for C5: a journey with priority `"urgent"` is coerced to
`"medium"`; an edge case with severity `"blocker"` and category `"security"`
is coerced to `"moderate"` and `"ux_gap"`. -/
theorem validate_coerces_unknown_enums_witness :
    (validateJourney 0 rawJourneyUrgent).priority = "medium" ∧
    (validateEdgeCase 0 rawEdgeCaseOdd).severity = "moderate" ∧
    (validateEdgeCase 0 rawEdgeCaseOdd).category = "ux_gap" :=
  ⟨(validate_coerces_unknown_enums 0 rawJourneyUrgent rawEdgeCaseOdd).2.2.2.1 (by decide),
   (validate_coerces_unknown_enums 0 rawJourneyUrgent rawEdgeCaseOdd).2.2.2.2.1 (by decide),
   (validate_coerces_unknown_enums 0 rawJourneyUrgent rawEdgeCaseOdd).2.2.2.2.2 (by decide)⟩

/-- C6: the defaulting/normalization pass is idempotent: feeding the
validated journeys (resp. edge cases) back through the validator yields the
same sequence. -/
theorem validate_idempotent (js : List RawJourney) (es : List RawEdgeCase) :
    validateJourneys ((validateJourneys js).map UserJourney.toRaw) = validateJourneys js ∧
    validateEdgeCases ((validateEdgeCases es).map EdgeCase.toRaw) = validateEdgeCases es :=
  ⟨validateJourneysFrom_idem 0 js, validateEdgeCasesFrom_idem 0 es⟩

/-- C7: `generateInsights` parses the reply as a leading bare integer,
clamps it to `[0, 100]`, substitutes the fixed default 70 on parse failure
instead of throwing, and therefore always returns an integer in `[0, 100]`. -/
theorem generateInsights_score_clamped (text : String) :
    0 ≤ scoreFromReply text ∧ scoreFromReply text ≤ 100 ∧
    generateInsights (Except.ok text) = Except.ok (scoreFromReply text) ∧
    (parseIntJS (jsTrim text.data) = none → scoreFromReply text = 70) ∧
    (∀ n : Int, parseIntJS (jsTrim text.data) = some n →
      scoreFromReply text = max 0 (min 100 n)) := by
  refine ⟨scoreFromReply_nonneg text, scoreFromReply_le_hundred text, rfl, ?_, ?_⟩
  · intro h; unfold scoreFromReply; rw [h]
  · intro n h; unfold scoreFromReply; rw [h]

/-- Witness for C7: an unparsable reply yields the default 70; the reply
`"250"` is clamped to 100. -/
theorem generateInsights_score_clamped_witness :
    scoreFromReply "The PRD is not ready." = 70 ∧ scoreFromReply "250" = 100 :=
  ⟨(generateInsights_score_clamped "The PRD is not ready.").2.2.2.1 (by decide),
   ((generateInsights_score_clamped "250").2.2.2.2 250 (by decide)).trans (by decide)⟩

/-- C1: if the LLM call of any of the extraction, edge-case-analysis, or
scoring stages throws (any error message, covering all classified kinds),
`analyzeDocument` still returns an `AnalysisResult`, namely the fallback:
exactly 1 journey, exactly 1 edge case whose severity is `"critical"`, and
`summary.coverageScore = 0`. -/
theorem analyzeDocument_fallback_on_stage_failure (document : PRDDocument)
    (context : AnalysisContext) (calls : StageCalls) (freshId fallbackId : String)
    (now : Nat) (h : stageFailure calls = true) :
    (analyzeDocument document context calls freshId fallbackId now).1
        = getFallbackAnalysis document context fallbackId now ∧
    (analyzeDocument document context calls freshId fallbackId now).1.journeys.length = 1 ∧
    (analyzeDocument document context calls freshId fallbackId now).1.edgeCases.length = 1 ∧
    ((analyzeDocument document context calls freshId fallbackId now).1.edgeCases.all
        (fun e => e.severity == "critical")) = true ∧
    (analyzeDocument document context calls freshId fallbackId now).1.summary.coverageScore = 0 := by
  unfold analyzeDocument
  cases hj : calls.journeysOutcome with
  | error msg =>
    exact ⟨rfl, rfl, rfl, rfl, rfl⟩
  | ok js =>
    dsimp only
    cases he : calls.edgeOutcome js with
    | error msg =>
      exact ⟨rfl, rfl, rfl, rfl, rfl⟩
    | ok es =>
      dsimp only
      cases hi : calls.insightsReply js es with
      | error msg =>
        exact ⟨rfl, rfl, rfl, rfl, rfl⟩
      | ok reply =>
        have hfail : stageFailure calls = false := by
          simp [stageFailure, hj, he, hi]
        exact absurd (h.symm.trans hfail) (by decide)

/-- Witness for C1: with an extraction call that throws `quota_exceeded`, the
result is the 1-journey, 1-critical-edge-case, score-0 fallback. -/
theorem analyzeDocument_fallback_on_stage_failure_witness :
    (analyzeDocument sampleDoc sampleCtx callsQuotaFail "r1" "r2" 0).1.summary.coverageScore = 0 ∧
    (analyzeDocument sampleDoc sampleCtx callsQuotaFail "r1" "r2" 0).1.journeys.length = 1 ∧
    (analyzeDocument sampleDoc sampleCtx callsQuotaFail "r1" "r2" 0).1.edgeCases.length = 1 :=
  ⟨(analyzeDocument_fallback_on_stage_failure sampleDoc sampleCtx callsQuotaFail
      "r1" "r2" 0 rfl).2.2.2.2,
   (analyzeDocument_fallback_on_stage_failure sampleDoc sampleCtx callsQuotaFail
      "r1" "r2" 0 rfl).2.1,
   (analyzeDocument_fallback_on_stage_failure sampleDoc sampleCtx callsQuotaFail
      "r1" "r2" 0 rfl).2.2.1⟩

/-- C2: every `AnalysisResult` returned by `analyzeDocument` (genuine success
or fallback) satisfies `summary.totalJourneys = |journeys|`,
`summary.totalEdgeCases = |edgeCases|`, `summary.criticalIssues` equals the
number of result edge cases with severity `"critical"`, and
`0 ≤ summary.coverageScore ≤ 100`. -/
theorem analyzeDocument_summary_invariants (document : PRDDocument)
    (context : AnalysisContext) (calls : StageCalls) (freshId fallbackId : String)
    (now : Nat) :
    (analyzeDocument document context calls freshId fallbackId now).1.summary.totalJourneys
        = (analyzeDocument document context calls freshId fallbackId now).1.journeys.length ∧
    (analyzeDocument document context calls freshId fallbackId now).1.summary.totalEdgeCases
        = (analyzeDocument document context calls freshId fallbackId now).1.edgeCases.length ∧
    (analyzeDocument document context calls freshId fallbackId now).1.summary.criticalIssues
        = ((analyzeDocument document context calls freshId fallbackId now).1.edgeCases.filter
            (fun e => e.severity == "critical")).length ∧
    0 ≤ (analyzeDocument document context calls freshId fallbackId now).1.summary.coverageScore ∧
    (analyzeDocument document context calls freshId fallbackId now).1.summary.coverageScore ≤ 100 := by
  unfold analyzeDocument
  cases hj : calls.journeysOutcome with
  | error msg =>
    exact ⟨rfl, rfl, rfl, Int.le_refl 0, (by decide : (0 : Int) ≤ 100)⟩
  | ok js =>
    dsimp only
    cases he : calls.edgeOutcome js with
    | error msg =>
      exact ⟨rfl, rfl, rfl, Int.le_refl 0, (by decide : (0 : Int) ≤ 100)⟩
    | ok es =>
      dsimp only
      cases hi : calls.insightsReply js es with
      | error msg =>
        exact ⟨rfl, rfl, rfl, Int.le_refl 0, (by decide : (0 : Int) ≤ 100)⟩
      | ok reply =>
        exact ⟨(length_validateJourneysFrom 0 js).symm,
               (length_validateEdgeCasesFrom 0 es).symm,
               (validateEdgeCasesFrom_critical_length 0 es).symm,
               scoreFromReply_nonneg reply, scoreFromReply_le_hundred reply⟩

/-- C3 counterexample: in a fallback run (extraction throws a 429-style
quota error) the final progress event has stage `generating` and progress 95,
and no event at all has stage `complete` — the claimed final
`complete`/100 event is never delivered. -/
theorem fallback_run_skips_complete_event :
    (((analyzeDocument sampleDoc sampleCtx callsQuotaFail "r1" "r2" 0).2.map
        (fun e => (e.stage, e.progress))).getLast?) = some (Stage.generating, 95) ∧
    ((analyzeDocument sampleDoc sampleCtx callsQuotaFail "r1" "r2" 0).2.all
        (fun e => !(decide (e.stage = Stage.complete)))) = true := by
  exact ⟨rfl, rfl⟩

/-- C3 amended: in every fallback run the progress callback's final event has
stage `generating` and progress 95 (not `complete`/100), and no `complete`
event is delivered. -/
theorem fallback_run_final_event_generating_95 (document : PRDDocument)
    (context : AnalysisContext) (calls : StageCalls) (freshId fallbackId : String)
    (now : Nat) (h : stageFailure calls = true) :
    (((analyzeDocument document context calls freshId fallbackId now).2.map
        (fun e => (e.stage, e.progress))).getLast?) = some (Stage.generating, 95) ∧
    ((analyzeDocument document context calls freshId fallbackId now).2.all
        (fun e => !(decide (e.stage = Stage.complete)))) = true := by
  unfold analyzeDocument
  cases hj : calls.journeysOutcome with
  | error msg =>
    exact ⟨rfl, rfl⟩
  | ok js =>
    dsimp only
    cases he : calls.edgeOutcome js with
    | error msg =>
      exact ⟨rfl, rfl⟩
    | ok es =>
      dsimp only
      cases hi : calls.insightsReply js es with
      | error msg =>
        exact ⟨rfl, rfl⟩
      | ok reply =>
        have hfail : stageFailure calls = false := by
          simp [stageFailure, hj, he, hi]
        exact absurd (h.symm.trans hfail) (by decide)

/-- Witness for the amended C3, at a concrete quota-failure run. -/
theorem fallback_run_final_event_generating_95_witness :
    (((analyzeDocument sampleDoc sampleCtx callsQuotaFail "w1" "w2" 7).2.map
        (fun e => (e.stage, e.progress))).getLast?) = some (Stage.generating, 95) :=
  (fallback_run_final_event_generating_95 sampleDoc sampleCtx callsQuotaFail
    "w1" "w2" 7 rfl).1

/-- C10: in every run the delivered progress values are strictly increasing,
never exceed 100, and form one of the four concrete traces: 10,30,60,90,100
on success, or a prefix of 10,30,60,90 followed by 95 on fallback. -/
theorem analyzeDocument_progress_monotone (document : PRDDocument)
    (context : AnalysisContext) (calls : StageCalls) (freshId fallbackId : String)
    (now : Nat) :
    List.Chain' (fun a b => a < b)
      ((analyzeDocument document context calls freshId fallbackId now).2.map
        (fun e => e.progress)) ∧
    (((analyzeDocument document context calls freshId fallbackId now).2.map
        (fun e => e.progress)).all (fun p => decide (p ≤ 100))) = true ∧
    (((analyzeDocument document context calls freshId fallbackId now).2.map
        (fun e => e.progress)) = [10, 30, 60, 90, 100] ∨
     ((analyzeDocument document context calls freshId fallbackId now).2.map
        (fun e => e.progress)) = [10, 30, 95] ∨
     ((analyzeDocument document context calls freshId fallbackId now).2.map
        (fun e => e.progress)) = [10, 30, 60, 95] ∨
     ((analyzeDocument document context calls freshId fallbackId now).2.map
        (fun e => e.progress)) = [10, 30, 60, 90, 95]) := by
  unfold analyzeDocument
  cases hj : calls.journeysOutcome with
  | error msg =>
    exact ⟨(by simp [List.chain'_cons] : List.Chain' (fun a b => a < b) [10, 30, 95]), rfl,
      Or.inr (Or.inl rfl)⟩
  | ok js =>
    dsimp only
    cases he : calls.edgeOutcome js with
    | error msg =>
      exact ⟨(by simp [List.chain'_cons] : List.Chain' (fun a b => a < b) [10, 30, 60, 95]), rfl,
        Or.inr (Or.inr (Or.inl rfl))⟩
    | ok es =>
      dsimp only
      cases hi : calls.insightsReply js es with
      | error msg =>
        exact ⟨(by simp [List.chain'_cons] : List.Chain' (fun a b => a < b) [10, 30, 60, 90, 95]), rfl,
          Or.inr (Or.inr (Or.inr rfl))⟩
      | ok reply =>
        exact ⟨(by simp [List.chain'_cons] : List.Chain' (fun a b => a < b) [10, 30, 60, 90, 100]), rfl,
          Or.inl rfl⟩

/-- C8 counterexample: the message `"API key quota"` contains `"quota"` (and
`"API key"`, and not `"429"`) yet is classified `invalid_api_key` — neither
`quota_exceeded` (as the claim's "quota" rule says) nor `api_unavailable` (as
the claim's both-substrings rule says). -/
theorem handleApiError_overlap_counterexample :
    containsSub ("API key quota").data "quota".data = true ∧
    containsSub ("API key quota").data "API key".data = true ∧
    containsSub ("API key quota").data "429".data = false ∧
    handleApiError "API key quota" = "invalid_api_key" := by
  decide

/-- C8 amended: the classifier tests substrings in source order — `"429"`
first (`quota_exceeded`), then `"API key"` (`invalid_api_key`), then
`"quota"` (`quota_exceeded`), else `api_unavailable`; in particular a message
containing both `"API key"` and `"quota"` but not `"429"` is classified
`invalid_api_key`. -/
theorem handleApiError_classification (msg : String) :
    (containsSub msg.data "429".data = true → handleApiError msg = "quota_exceeded") ∧
    (containsSub msg.data "429".data = false → containsSub msg.data "API key".data = true →
      handleApiError msg = "invalid_api_key") ∧
    (containsSub msg.data "429".data = false → containsSub msg.data "API key".data = false →
      containsSub msg.data "quota".data = true → handleApiError msg = "quota_exceeded") ∧
    (containsSub msg.data "429".data = false → containsSub msg.data "API key".data = false →
      containsSub msg.data "quota".data = false → handleApiError msg = "api_unavailable") := by
  refine ⟨fun h1 => ?_, fun h1 h2 => ?_, fun h1 h2 h3 => ?_, fun h1 h2 h3 => ?_⟩
  · simp [handleApiError, h1]
  · simp [handleApiError, h1, h2]
  · simp [handleApiError, h1, h2, h3]
  · simp [handleApiError, h1, h2, h3]

/-- Witness for the amended C8. -/
theorem handleApiError_classification_witness :
    handleApiError "API key quota exceeded" = "invalid_api_key" :=
  (handleApiError_classification "API key quota exceeded").2.1 (by decide) (by decide)

/-- C9: for each of the three AI stage methods, a reply with no extractable
JSON object/array span produces a parse error that is routed through
`handleApiError` and thrown as `api_unavailable`, indistinguishable from
provider unavailability. -/
theorem parse_failure_classified_api_unavailable (t1 t2 t3 : String)
    (h1 : extractSpan braceOpen braceClose t1.data = none)
    (h2 : extractSpan '[' ']' t2.data = none)
    (h3 : extractSpan '[' ']' t3.data = none) :
    validatePRDDocumentFromReply t1 = Except.error "api_unavailable" ∧
    analyzeForUserJourneysFromReply t2 = Except.error "api_unavailable" ∧
    analyzeForEdgeCasesFromReply t3 = Except.error "api_unavailable" := by
  unfold validatePRDDocumentFromReply analyzeForUserJourneysFromReply
    analyzeForEdgeCasesFromReply
  rw [h1, h2, h3]
  exact ⟨rfl, rfl, rfl⟩

/-- Witness for C9: a prose-only reply is classified `api_unavailable` at all
three stages. -/
theorem parse_failure_classified_api_unavailable_witness :
    validatePRDDocumentFromReply "no json in this reply" = Except.error "api_unavailable" ∧
    analyzeForUserJourneysFromReply "no json in this reply" = Except.error "api_unavailable" ∧
    analyzeForEdgeCasesFromReply "no json in this reply" = Except.error "api_unavailable" :=
  parse_failure_classified_api_unavailable "no json in this reply" "no json in this reply"
    "no json in this reply" (by decide) (by decide) (by decide)

theorem round_conf_ge_nine (s D : Int) (hs : 13 ≤ s) (hD : D = 139) :
    9 ≤ Frac.round (Frac.fmax (Frac.ofInt 0) (Frac.fmin (Frac.ofInt 100)
      (Frac.mul (Frac.div (Frac.ofInt s) (Frac.ofInt (max D 1))) (Frac.ofInt 100)))) := by
  subst hD
  have hmax : (max (139 : Int) 1) = 139 := by norm_num
  rw [hmax]
  simp only [Frac.round, Frac.fmax, Frac.fmin, Frac.mul, Frac.div, Frac.ofInt, Frac.blt,
    decide_eq_true_eq]
  split_ifs <;>
    · dsimp only at *
      rw [Int.fdiv_eq_ediv _ (by norm_num)]
      omega

set_option maxRecDepth 100000 in
/-- The cleaning pass sends `scenarioBDoc` to the lower-cased literal. -/
theorem scenarioB_clean_eq :
    scenarioBDoc.data.map cleanChar = cleanScenarioBDoc.data := by
  have hA : scenarioBDocA.data.map cleanChar = cleanScenarioBDocA.data := by decide
  have hB : scenarioBDocB.data.map cleanChar = cleanScenarioBDocB.data := by decide
  show (scenarioBDocA ++ scenarioBDocB).data.map cleanChar
      = (cleanScenarioBDocA ++ cleanScenarioBDocB).data
  rw [string_append_data, string_append_data, List.map_append, hA, hB]

set_option maxRecDepth 100000 in
/-- Keyword-chunk scan of the cleaned scenario-B document. -/
theorem scenarioB_prd_c1 :
    List.filter (fun k => containsSub cleanScenarioBDoc.data (k.data.map toLowerChar))
      ["product requirements", "product requirement", "prd", "requirements document"]
      = [] := by
  decide

set_option maxRecDepth 100000 in
/-- Keyword-chunk scan of the cleaned scenario-B document. -/
theorem scenarioB_prd_c2 :
    List.filter (fun k => containsSub cleanScenarioBDoc.data (k.data.map toLowerChar))
      ["functional requirements", "non-functional requirements", "user stories", "acceptance criteria"]
      = ["functional requirements", "user stories", "acceptance criteria"] := by
  decide

set_option maxRecDepth 100000 in
/-- Keyword-chunk scan of the cleaned scenario-B document. -/
theorem scenarioB_prd_c3 :
    List.filter (fun k => containsSub cleanScenarioBDoc.data (k.data.map toLowerChar))
      ["success metrics", "kpis", "objectives", "user journey"]
      = ["kpis"] := by
  decide

set_option maxRecDepth 100000 in
/-- Keyword-chunk scan of the cleaned scenario-B document. -/
theorem scenarioB_prd_c4 :
    List.filter (fun k => containsSub cleanScenarioBDoc.data (k.data.map toLowerChar))
      ["user flow", "user experience", "user interface", "persona"]
      = [] := by
  decide

set_option maxRecDepth 100000 in
/-- Keyword-chunk scan of the cleaned scenario-B document. -/
theorem scenarioB_prd_c5 :
    List.filter (fun k => containsSub cleanScenarioBDoc.data (k.data.map toLowerChar))
      ["user persona", "target audience", "end user", "customer"]
      = [] := by
  decide

set_option maxRecDepth 100000 in
/-- Keyword-chunk scan of the cleaned scenario-B document. -/
theorem scenarioB_prd_c6 :
    List.filter (fun k => containsSub cleanScenarioBDoc.data (k.data.map toLowerChar))
      ["stakeholder", "use case", "user story", "feature"]
      = [] := by
  decide

set_option maxRecDepth 100000 in
/-- Keyword-chunk scan of the cleaned scenario-B document. -/
theorem scenarioB_prd_c7 :
    List.filter (fun k => containsSub cleanScenarioBDoc.data (k.data.map toLowerChar))
      ["functionality", "capability", "specification", "wireframe"]
      = [] := by
  decide

set_option maxRecDepth 100000 in
/-- Keyword-chunk scan of the cleaned scenario-B document. -/
theorem scenarioB_prd_c8 :
    List.filter (fun k => containsSub cleanScenarioBDoc.data (k.data.map toLowerChar))
      ["mockup", "prototype", "mvp", "minimum viable product"]
      = [] := by
  decide

set_option maxRecDepth 100000 in
/-- Keyword-chunk scan of the cleaned scenario-B document. -/
theorem scenarioB_prd_c9 :
    List.filter (fun k => containsSub cleanScenarioBDoc.data (k.data.map toLowerChar))
      ["roadmap", "milestone", "release", "sprint"]
      = [] := by
  decide

set_option maxRecDepth 100000 in
/-- Keyword-chunk scan of the cleaned scenario-B document. -/
theorem scenarioB_prd_c10 :
    List.filter (fun k => containsSub cleanScenarioBDoc.data (k.data.map toLowerChar))
      ["iteration", "business logic", "business rules", "business requirements"]
      = [] := by
  decide

set_option maxRecDepth 100000 in
/-- Keyword-chunk scan of the cleaned scenario-B document. -/
theorem scenarioB_prd_c11 :
    List.filter (fun k => containsSub cleanScenarioBDoc.data (k.data.map toLowerChar))
      ["revenue", "monetization", "pricing", "market"]
      = [] := by
  decide

set_option maxRecDepth 100000 in
/-- Keyword-chunk scan of the cleaned scenario-B document. -/
theorem scenarioB_prd_c12 :
    List.filter (fun k => containsSub cleanScenarioBDoc.data (k.data.map toLowerChar))
      ["competition", "value proposition", "problem statement", "solution"]
      = [] := by
  decide

set_option maxRecDepth 100000 in
/-- Keyword-chunk scan of the cleaned scenario-B document. -/
theorem scenarioB_prd_c13 :
    List.filter (fun k => containsSub cleanScenarioBDoc.data (k.data.map toLowerChar))
      ["api", "integration", "database", "architecture"]
      = [] := by
  decide

set_option maxRecDepth 100000 in
/-- Keyword-chunk scan of the cleaned scenario-B document. -/
theorem scenarioB_prd_c14 :
    List.filter (fun k => containsSub cleanScenarioBDoc.data (k.data.map toLowerChar))
      ["system", "platform", "framework", "security"]
      = [] := by
  decide

set_option maxRecDepth 100000 in
/-- Keyword-chunk scan of the cleaned scenario-B document. -/
theorem scenarioB_prd_c15 :
    List.filter (fun k => containsSub cleanScenarioBDoc.data (k.data.map toLowerChar))
      ["performance", "scalability", "authentication", "authorization"]
      = [] := by
  decide

set_option maxRecDepth 100000 in
/-- Keyword-chunk scan of the cleaned scenario-B document. -/
theorem scenarioB_prd_c16 :
    List.filter (fun k => containsSub cleanScenarioBDoc.data (k.data.map toLowerChar))
      ["workflow", "process"]
      = [] := by
  decide

set_option maxRecDepth 100000 in
/-- Exactly four PRD keywords occur in the cleaned scenario-B document (assembled from the chunk scans to keep kernel work per
declaration small). -/
theorem scenarioB_prdMatches :
    prdMatchesOf (scenarioBDoc.data.map cleanChar) = ["functional requirements", "user stories", "acceptance criteria", "kpis"] := by
  rw [scenarioB_clean_eq]
  unfold prdMatchesOf
  have hsplit : prdKeywords
      = ["product requirements", "product requirement", "prd", "requirements document"]
      ++ ["functional requirements", "non-functional requirements", "user stories", "acceptance criteria"]
      ++ ["success metrics", "kpis", "objectives", "user journey"]
      ++ ["user flow", "user experience", "user interface", "persona"]
      ++ ["user persona", "target audience", "end user", "customer"]
      ++ ["stakeholder", "use case", "user story", "feature"]
      ++ ["functionality", "capability", "specification", "wireframe"]
      ++ ["mockup", "prototype", "mvp", "minimum viable product"]
      ++ ["roadmap", "milestone", "release", "sprint"]
      ++ ["iteration", "business logic", "business rules", "business requirements"]
      ++ ["revenue", "monetization", "pricing", "market"]
      ++ ["competition", "value proposition", "problem statement", "solution"]
      ++ ["api", "integration", "database", "architecture"]
      ++ ["system", "platform", "framework", "security"]
      ++ ["performance", "scalability", "authentication", "authorization"]
      ++ ["workflow", "process"] := rfl
  rw [hsplit]
  simp only [List.filter_append, scenarioB_prd_c1, scenarioB_prd_c2, scenarioB_prd_c3, scenarioB_prd_c4, scenarioB_prd_c5, scenarioB_prd_c6, scenarioB_prd_c7, scenarioB_prd_c8, scenarioB_prd_c9, scenarioB_prd_c10, scenarioB_prd_c11, scenarioB_prd_c12, scenarioB_prd_c13, scenarioB_prd_c14, scenarioB_prd_c15, scenarioB_prd_c16]
  decide

set_option maxRecDepth 100000 in
/-- Keyword-chunk scan of the cleaned scenario-B document. -/
theorem scenarioB_struct_c1 :
    List.filter (fun k => containsSub cleanScenarioBDoc.data (k.data.map toLowerChar))
      ["overview", "introduction", "scope", "assumptions"]
      = [] := by
  decide

set_option maxRecDepth 100000 in
/-- Keyword-chunk scan of the cleaned scenario-B document. -/
theorem scenarioB_struct_c2 :
    List.filter (fun k => containsSub cleanScenarioBDoc.data (k.data.map toLowerChar))
      ["constraints", "dependencies", "risks", "timeline"]
      = [] := by
  decide

set_option maxRecDepth 100000 in
/-- Keyword-chunk scan of the cleaned scenario-B document. -/
theorem scenarioB_struct_c3 :
    List.filter (fun k => containsSub cleanScenarioBDoc.data (k.data.map toLowerChar))
      ["deliverables", "appendix", "glossary", "references"]
      = [] := by
  decide

set_option maxRecDepth 100000 in
/-- Keyword-chunk scan of the cleaned scenario-B document. -/
theorem scenarioB_struct_c4 :
    List.filter (fun k => containsSub cleanScenarioBDoc.data (k.data.map toLowerChar))
      ["version", "changelog", "revision"]
      = [] := by
  decide

set_option maxRecDepth 100000 in
/-- No structure keyword occurs in the cleaned scenario-B document (assembled from the chunk scans to keep kernel work per
declaration small). -/
theorem scenarioB_structMatches :
    structureMatchesOf (scenarioBDoc.data.map cleanChar) = [] := by
  rw [scenarioB_clean_eq]
  unfold structureMatchesOf
  have hsplit : structureKeywords
      = ["overview", "introduction", "scope", "assumptions"]
      ++ ["constraints", "dependencies", "risks", "timeline"]
      ++ ["deliverables", "appendix", "glossary", "references"]
      ++ ["version", "changelog", "revision"] := rfl
  rw [hsplit]
  simp only [List.filter_append, scenarioB_struct_c1, scenarioB_struct_c2, scenarioB_struct_c3, scenarioB_struct_c4]
  decide

set_option maxRecDepth 100000 in
/-- Keyword-chunk scan of the cleaned scenario-B document. -/
theorem scenarioB_anti_c1 :
    List.filter (fun k => containsSub cleanScenarioBDoc.data (k.data.map toLowerChar))
      ["recipe", "cooking", "ingredients", "temperature"]
      = [] := by
  decide

set_option maxRecDepth 100000 in
/-- Keyword-chunk scan of the cleaned scenario-B document. -/
theorem scenarioB_anti_c2 :
    List.filter (fun k => containsSub cleanScenarioBDoc.data (k.data.map toLowerChar))
      ["oven", "novel", "chapter", "character"]
      = [] := by
  decide

set_option maxRecDepth 100000 in
/-- Keyword-chunk scan of the cleaned scenario-B document. -/
theorem scenarioB_anti_c3 :
    List.filter (fun k => containsSub cleanScenarioBDoc.data (k.data.map toLowerChar))
      ["plot", "story", "poem", "verse"]
      = [] := by
  decide

set_option maxRecDepth 100000 in
/-- Keyword-chunk scan of the cleaned scenario-B document. -/
theorem scenarioB_anti_c4 :
    List.filter (fun k => containsSub cleanScenarioBDoc.data (k.data.map toLowerChar))
      ["rhyme", "stanza", "invoice", "payment"]
      = [] := by
  decide

set_option maxRecDepth 100000 in
/-- Keyword-chunk scan of the cleaned scenario-B document. -/
theorem scenarioB_anti_c5 :
    List.filter (fun k => containsSub cleanScenarioBDoc.data (k.data.map toLowerChar))
      ["billing", "receipt", "medical", "diagnosis"]
      = [] := by
  decide

set_option maxRecDepth 100000 in
/-- Keyword-chunk scan of the cleaned scenario-B document. -/
theorem scenarioB_anti_c6 :
    List.filter (fun k => containsSub cleanScenarioBDoc.data (k.data.map toLowerChar))
      ["treatment", "patient", "doctor", "legal"]
      = [] := by
  decide

set_option maxRecDepth 100000 in
/-- Keyword-chunk scan of the cleaned scenario-B document. -/
theorem scenarioB_anti_c7 :
    List.filter (fun k => containsSub cleanScenarioBDoc.data (k.data.map toLowerChar))
      ["contract", "agreement", "clause", "whereas"]
      = [] := by
  decide

set_option maxRecDepth 100000 in
/-- No anti-pattern keyword occurs in the cleaned scenario-B document (assembled from the chunk scans to keep kernel work per
declaration small). -/
theorem scenarioB_antiMatches :
    antiMatchesOf (scenarioBDoc.data.map cleanChar) = [] := by
  rw [scenarioB_clean_eq]
  unfold antiMatchesOf
  have hsplit : antiPatterns
      = ["recipe", "cooking", "ingredients", "temperature"]
      ++ ["oven", "novel", "chapter", "character"]
      ++ ["plot", "story", "poem", "verse"]
      ++ ["rhyme", "stanza", "invoice", "payment"]
      ++ ["billing", "receipt", "medical", "diagnosis"]
      ++ ["treatment", "patient", "doctor", "legal"]
      ++ ["contract", "agreement", "clause", "whereas"] := rfl
  rw [hsplit]
  simp only [List.filter_append, scenarioB_anti_c1, scenarioB_anti_c2, scenarioB_anti_c3, scenarioB_anti_c4, scenarioB_anti_c5, scenarioB_anti_c6, scenarioB_anti_c7]
  decide

set_option maxRecDepth 100000 in
/-- Keyword-chunk scan of the cleaned scenario-B document. -/
theorem scenarioB_simple_c1 :
    List.filter (fun k => containsSub cleanScenarioBDoc.data (k.data.map toLowerChar))
      ["product", "requirements", "feature", "user"]
      = ["requirements", "user"] := by
  decide

set_option maxRecDepth 100000 in
/-- Keyword-chunk scan of the cleaned scenario-B document. -/
theorem scenarioB_simple_c2 :
    List.filter (fun k => containsSub cleanScenarioBDoc.data (k.data.map toLowerChar))
      ["functionality", "specification", "workflow", "process"]
      = [] := by
  decide

set_option maxRecDepth 100000 in
/-- Keyword-chunk scan of the cleaned scenario-B document. -/
theorem scenarioB_simple_c3 :
    List.filter (fun k => containsSub cleanScenarioBDoc.data (k.data.map toLowerChar))
      ["system", "application", "interface", "design"]
      = [] := by
  decide

set_option maxRecDepth 100000 in
/-- Keyword-chunk scan of the cleaned scenario-B document. -/
theorem scenarioB_simple_c4 :
    List.filter (fun k => containsSub cleanScenarioBDoc.data (k.data.map toLowerChar))
      ["development", "implementation", "business", "objective"]
      = [] := by
  decide

set_option maxRecDepth 100000 in
/-- Keyword-chunk scan of the cleaned scenario-B document. -/
theorem scenarioB_simple_c5 :
    List.filter (fun k => containsSub cleanScenarioBDoc.data (k.data.map toLowerChar))
      ["goal", "scope", "overview", "description"]
      = [] := by
  decide

set_option maxRecDepth 100000 in
/-- Exactly two of the simplified validator's keywords occur in the cleaned scenario-B document (assembled from the chunk scans to keep kernel work per
declaration small). -/
theorem scenarioB_simpleMatches :
    simpleMatchesOf (scenarioBDoc.data.map cleanChar) = ["requirements", "user"] := by
  rw [scenarioB_clean_eq]
  unfold simpleMatchesOf
  have hsplit : simpleKeywords
      = ["product", "requirements", "feature", "user"]
      ++ ["functionality", "specification", "workflow", "process"]
      ++ ["system", "application", "interface", "design"]
      ++ ["development", "implementation", "business", "objective"]
      ++ ["goal", "scope", "overview", "description"] := rfl
  rw [hsplit]
  simp only [List.filter_append, scenarioB_simple_c1, scenarioB_simple_c2, scenarioB_simple_c3, scenarioB_simple_c4, scenarioB_simple_c5]
  decide

set_option maxRecDepth 100000 in
set_option maxHeartbeats 1000000 in
/-- The scenario-B document has 601 words. -/
theorem scenarioB_words :
    (splitWs (scenarioBDoc.data.map cleanChar)).length = 601 := by
  rw [scenarioB_clean_eq]
  decide

set_option maxRecDepth 100000 in
/-- The cleaned scenario-B document contains `"functional requirements"`. -/
theorem scenarioB_contains_fr :
    containsSub (scenarioBDoc.data.map cleanChar) "functional requirements".data = true := by
  rw [scenarioB_clean_eq]
  decide

set_option maxRecDepth 100000 in
/-- The cleaned scenario-B document contains `"user stories"`. -/
theorem scenarioB_contains_us :
    containsSub (scenarioBDoc.data.map cleanChar) "user stories".data = true := by
  rw [scenarioB_clean_eq]
  decide

set_option maxRecDepth 100000 in
/-- The cleaned scenario-B document contains `"acceptance criteria"`. -/
theorem scenarioB_contains_ac :
    containsSub (scenarioBDoc.data.map cleanChar) "acceptance criteria".data = true := by
  rw [scenarioB_clean_eq]
  decide

set_option maxRecDepth 100000 in
/-- The cleaned scenario-B document contains `"kpis"`. -/
theorem scenarioB_contains_kpis :
    containsSub (scenarioBDoc.data.map cleanChar) "kpis".data = true := by
  rw [scenarioB_clean_eq]
  decide

set_option maxRecDepth 100000 in
set_option maxHeartbeats 1000000 in
/-- C4 counterexample: `scenarioBDoc` is a 601-word document containing the
verbatim strings `"functional requirements"`, `"user stories"`,
`"acceptance criteria"` and `"KPIs"` (repeated) and no anti-pattern keyword,
yet `fallbackValidation` returns `isPRD = false` with confidence 9 (not
`isPRD = true` with confidence above 70); the simplified variant returns
`isPRD = true` but confidence 28, still not above 70. -/
theorem fallbackValidation_scenarioB_counterexample :
    containsSub scenarioBDoc.data "functional requirements".data = true ∧
    containsSub scenarioBDoc.data "user stories".data = true ∧
    containsSub scenarioBDoc.data "acceptance criteria".data = true ∧
    containsSub scenarioBDoc.data "KPIs".data = true ∧
    antiMatchesOf (scenarioBDoc.data.map cleanChar) = [] ∧
    (splitWs (scenarioBDoc.data.map cleanChar)).length = 601 ∧
    (fallbackValidation scenarioBDoc).isPRD = false ∧
    (fallbackValidation scenarioBDoc).confidence = 9 ∧
    (simpleValidation scenarioBDoc).isPRD = true ∧
    (simpleValidation scenarioBDoc).confidence = 28 := by
  refine ⟨by decide, by decide, by decide, by decide, scenarioB_antiMatches,
    scenarioB_words, ?_, ?_, ?_, ?_⟩
  · simp only [fallbackValidation, scenarioB_prdMatches, scenarioB_structMatches,
      scenarioB_antiMatches, scenarioB_words]
    decide
  · simp only [fallbackValidation, scenarioB_prdMatches, scenarioB_structMatches,
      scenarioB_antiMatches, scenarioB_words]
    decide
  · simp only [simpleValidation, scenarioB_simpleMatches, scenarioB_words]
    decide
  · simp only [simpleValidation, scenarioB_simpleMatches, scenarioB_words]
    decide

/-- C4 amended: a roughly-600-word document that (after cleaning) contains
the four scenario-B keyword strings and no anti-pattern keyword is only
guaranteed a score of at least 13 out of the maximum 139 — four PRD keyword
matches worth 2 each plus the length bonus 5 — hence a returned confidence of
at least 9; `isPRD = true` and `confidence > 70` do not follow (and fail for
`scenarioBDoc`). -/
theorem fallbackValidation_scenarioB_lower_bound (content : String)
    (h1 : containsSub (content.data.map cleanChar) "functional requirements".data = true)
    (h2 : containsSub (content.data.map cleanChar) "user stories".data = true)
    (h3 : containsSub (content.data.map cleanChar) "acceptance criteria".data = true)
    (h4 : containsSub (content.data.map cleanChar) "kpis".data = true)
    (h5 : antiMatchesOf (content.data.map cleanChar) = [])
    (h6 : 500 < (splitWs (content.data.map cleanChar)).length) :
    9 ≤ (fallbackValidation content).confidence := by
  have hm : 4 ≤ (prdMatchesOf (content.data.map cleanChar)).length := by
    have hsub : ["functional requirements", "user stories", "acceptance criteria",
        "kpis"].Sublist prdKeywords := by decide
    have e1 : "functional requirements".data.map toLowerChar
        = "functional requirements".data := by decide
    have e2 : "user stories".data.map toLowerChar = "user stories".data := by decide
    have e3 : "acceptance criteria".data.map toLowerChar
        = "acceptance criteria".data := by decide
    have e4 : "kpis".data.map toLowerChar = "kpis".data := by decide
    have hfilter : (["functional requirements", "user stories", "acceptance criteria",
          "kpis"].filter
          (fun k => containsSub (content.data.map cleanChar) (k.data.map toLowerChar)))
        = ["functional requirements", "user stories", "acceptance criteria", "kpis"] := by
      simp [List.filter_cons, e1, e2, e3, e4, h1, h2, h3, h4]
    have hle := (hsub.filter
      (fun k => containsSub (content.data.map cleanChar) (k.data.map toLowerChar))).length_le
    rw [hfilter] at hle
    exact hle
  have hnot100 : ¬ ((splitWs (content.data.map cleanChar)).length < 100) := by omega
  simp only [fallbackValidation]
  rw [if_neg hnot100, if_pos h6]
  refine round_conf_ge_nine _ _ ?_ (by decide)
  rw [h5]
  simp only [List.length_nil]
  have hz : 0 ≤ (structureMatchesOf (content.data.map cleanChar)).length := Nat.zero_le _
  omega

/-- Witness for the amended C4, at the concrete scenario-B document. -/
theorem fallbackValidation_scenarioB_lower_bound_witness :
    9 ≤ (fallbackValidation scenarioBDoc).confidence := by
  apply fallbackValidation_scenarioB_lower_bound scenarioBDoc scenarioB_contains_fr
    scenarioB_contains_us scenarioB_contains_ac scenarioB_contains_kpis
    scenarioB_antiMatches
  rw [scenarioB_words]
  decide

end Flowmender
